import Mathlib

/-!
Shallow embedding of the RPIOUARTDriver virtual-UART transport
(`src/libraries/AP_Airspeed/AP_Airspeed.cpp`, `RPIOUARTDriver::*`).

The driver relays a byte stream over a shared SPI bus to an I/O
coprocessor using fixed-size register packets.  We embed the transport
state, the `begin` initialization path and the `_timer_tick` poll path
as pure Lean functions.  The bus, clock and semaphore are modelled as
explicit environment inputs; each tick returns both the successor state
and the list of packets transmitted on the bus during that tick (the
bus trace), so that "performs no bus transaction" is expressible as an
empty trace.
-/

namespace RPIOUART

/-- Machine-integer truncations used by the C code. -/
def u32 (x : Nat) : Nat := x % 4294967296

/-- Sixteen-bit truncation (assignment into a `uint16_t`). -/
def u16 (x : Nat) : Nat := x % 65536

/-- Unsigned 32-bit subtraction `a - b` with wraparound, as in
`AP_HAL::micros() - _last_update_timestamp`. -/
def u32sub (a b : Nat) : Nat := (u32 a + 4294967296 - u32 b) % 4294967296

/-- Poll interval: `RPIOUART_POLL_TIME_INTERVAL`, 10000 microseconds. -/
def RPIOUART_POLL_TIME_INTERVAL : Nat := 10000

/-- Modelled from the spec: `PKT_MAX_REGS`, the fixed register capacity of a
packet, defined in `px4io_protocol.h` which is not part of the transcribed
source.  The spec calls it the "packet register capacity"; the PX4IO
protocol fixes it at 32 registers (64 payload bytes). -/
def PKT_MAX_REGS : Nat := 32

/-- Modelled from the spec: READ opcode, held in the high bits of the
count/code field (`px4io_protocol.h` is not in the transcribed source;
the spec describes a 2-bit opcode in the high bits, low bits a count). -/
def PKT_CODE_READ : Nat := 0x00

/-- Modelled from the spec: WRITE opcode (high bits of the count/code field). -/
def PKT_CODE_WRITE : Nat := 0x40

/-- Modelled from the spec: bulk-UART-transfer opcode (high bits of the
count/code field). -/
def PKT_CODE_SPIUART : Nat := 0x80

/-- Modelled from the spec: the UART-buffer page selector
`PX4IO_PAGE_UART_BUFFER` from `px4io_protocol.h` (not in the transcribed
source).  The spec only says it selects the single "UART buffer" register
bank; it is a dedicated nonzero page id (page 0 is the protocol's
configuration page).  No claim below depends on its exact value, only on
it being the page the driver compares against (and on it being nonzero,
which the page-0 configuration bank forces). -/
def PX4IO_PAGE_UART_BUFFER : Nat := 64

/-- The fixed-layout bus packet (`struct IOPacket`): count/code field,
page selector, offset, register payload, integrity field. -/
structure IOPacket where
  count_code : Nat
  page : Nat
  offset : Nat
  regs : List Nat
  crc : Nat
  deriving DecidableEq

/-- Modelled from the spec: the integrity checksum `crc_packet` from the
missing `px4io_protocol.h`, computed over the structure with the crc field
held at zero.  The concrete polynomial is irrelevant to every claim; a
sum-based tag stands in for it. -/
def crc_packet (p : IOPacket) : Nat :=
  (p.count_code + p.page + p.offset + p.regs.sum) % 256

/-- Store the checksum: the crc field is zeroed, `crc_packet` is computed
over the structure and written back. -/
def finishCrc (p : IOPacket) : IOPacket :=
  { p with crc := crc_packet { p with crc := 0 } }

/-- Little-endian byte view of the register array
(`(uint8_t *)_dma_packet.regs`). -/
def regsBytes (regs : List Nat) : List Nat
  := (regs.map (fun r => [r % 256, r / 256 % 256])).flatten

/-- Pack a little-endian byte list into 16-bit registers (the byte view
written into `_dma_packet_tx.regs`). -/
def bytesToRegs : List Nat → List Nat
  | b0 :: b1 :: rest => (b0 % 256 + b1 % 256 * 256) :: bytesToRegs rest
  | [b0] => [b0 % 256]
  | [] => []

/-- A bounded byte queue (`ByteBuffer`): capacity fixed by `set_size`,
FIFO contents. Modelled from the spec ("bounded byte queues"); the
`ByteBuffer` class itself is not in the transcribed source. -/
structure ByteBuffer where
  size : Nat
  data : List Nat
  deriving DecidableEq

/-- Queued byte count (`ByteBuffer::available`). -/
def ByteBuffer.available (b : ByteBuffer) : Nat := b.data.length

/-- Free room (`ByteBuffer::space`). -/
def ByteBuffer.space (b : ByteBuffer) : Nat := b.size - b.data.length

/-- Dequeue (`ByteBuffer::read`): removes and returns `min n available`
bytes. -/
def ByteBuffer.read_n (b : ByteBuffer) (n : Nat) : List Nat × ByteBuffer :=
  (b.data.take n, { b with data := b.data.drop n })

/-- Enqueue (`ByteBuffer::write`): appends `min len space` bytes. -/
def ByteBuffer.write_bytes (b : ByteBuffer) (xs : List Nat) : ByteBuffer :=
  { b with data := b.data ++ xs.take b.space }

/-- The transport state of `RPIOUARTDriver` (the fields the claims are
about): operating-mode flag `_external`, negotiation-pending flag
`_need_set_baud`, authoritative baud rate `_baudrate`, initialized flag
`_initialised`, poll-in-progress guard `_in_timer`, last serviced-poll
timestamp `_last_update_timestamp`, and the two flow-controlled buffers
`_writebuf` (outbound) and `_readbuf` (inbound). -/
structure UARTState where
  external : Bool
  need_set_baud : Bool
  baudrate : Nat
  initialised : Bool
  in_timer : Bool
  last_update_timestamp : Nat
  writebuf : ByteBuffer
  readbuf : ByteBuffer
  deriving DecidableEq

/-- Constructor state: `RPIOUARTDriver::RPIOUARTDriver()`. -/
def initialState : UARTState :=
  { external := false
    need_set_baud := false
    baudrate := 0
    initialised := false
    in_timer := false
    last_update_timestamp := 0
    writebuf := { size := 0, data := [] }
    readbuf := { size := 0, data := [] } }

/-- Mode query `isExternal`: reports the operating-mode flag. -/
def isExternal (s : UARTState) : Bool := s.external

/-- Environment of one `begin` call: whether a hardware device path is
configured (`device_path != NULL`) and whether the delegated hardware
UART initialization succeeds (`UARTDriver::begin` followed by the
`is_initialized()` check; the base class is not in the transcribed
source, so its success is an input). -/
structure BeginEnv where
  device_path : Bool
  hw_init_ok : Bool
  deriving DecidableEq

/-- Initialization, `RPIOUARTDriver::begin(b, rxS, txS)`.

The two busy-waits (`while (_in_timer) ...` and `while (_need_set_baud) ...`)
synchronize with the tick context and write nothing themselves; the state
returned here is the transition contributed by `begin` itself (the
concurrent tick transition is `timer_tick` below).  On the external path
the delegate's own buffer bookkeeping is outside the packet transport;
`is_initialized()` returning true is recorded in `initialised`. -/
def begin (s : UARTState) (b rxS txS : Nat) (env : BeginEnv) : UARTState :=
  if env.device_path && env.hw_init_ok then
    { s with external := true, initialised := true }
  else
    let rxS2 := if rxS < 1024 then 2048 else rxS
    let txS2 := if txS < 1024 then 2048 else txS
    { s with
      initialised := decide (txS2 ≠ 0) && decide (rxS2 ≠ 0)
      readbuf := { size := rxS2, data := [] }
      writebuf := { size := txS2, data := [] }
      baudrate := u32 b
      need_set_baud := true
      external := s.external }

/-- Low-level write `_write_fd`: in virtual mode returns -1; in
external mode it delegates (the delegate, not in the transcribed source,
is an input). -/
def write_fd (s : UARTState) (hwResult : Int) : Int :=
  if s.external then hwResult else -1

/-- Low-level read `_read_fd`: in virtual mode returns -1. -/
def read_fd (s : UARTState) (hwResult : Int) : Int :=
  if s.external then hwResult else -1

/-- Environment of one `_timer_tick` call: the monotonic clock at the
rate-limit check (`now`) and at the final timestamp store (`now2`), the
outcomes of the two non-blocking semaphore acquisitions (`sem1` for the
baud-negotiation step, `sem2` for the main poll), and the response
packet delivered into `_dma_packet_rx` by the final READ transfer. -/
structure TickEnv where
  now : Nat
  now2 : Nat
  sem1 : Bool
  sem2 : Bool
  rx : IOPacket
  deriving DecidableEq

/-- The baud-negotiation WRITE packet (lines 420-428):
`count_code = 2 | PKT_CODE_WRITE`, UART page, offset 0, registers 0 and 1
hold the low and high 16 bits of the baud rate. -/
def mkBaudPacket (b : Nat) : IOPacket :=
  finishCrc
    { count_code := 2 ||| PKT_CODE_WRITE
      page := PX4IO_PAGE_UART_BUFFER
      offset := 0
      regs := ((List.replicate PKT_MAX_REGS 0).set 0 (b % 65536)).set 1 (u32 b / 65536)
      crc := 0 }

/-- The outbound bulk-transfer packet (lines 470-478): the first `n` bytes
of the register byte-view are the drained payload, the rest stay zero;
`count_code = PKT_MAX_REGS | PKT_CODE_SPIUART`, UART page, `offset = n`. -/
def mkBulkPacket (payload : List Nat) (n : Nat) : IOPacket :=
  finishCrc
    { count_code := PKT_MAX_REGS ||| PKT_CODE_SPIUART
      page := PX4IO_PAGE_UART_BUFFER
      offset := n
      regs := bytesToRegs (payload ++ List.replicate (PKT_MAX_REGS * 2 - payload.length) 0)
      crc := 0 }

/-- The inbound-step READ request packet (lines 486-491):
`count_code = 0 | PKT_CODE_READ`, page 0, offset 0, registers zeroed. -/
def mkReadPacket : IOPacket :=
  finishCrc
    { count_code := 0 ||| PKT_CODE_READ
      page := 0
      offset := 0
      regs := List.replicate PKT_MAX_REGS 0
      crc := 0 }

/-- Per-cycle byte budget (line 465):
`uint16_t _max_size = _baudrate / 10 / (1000000 / RPIOUART_POLL_TIME_INTERVAL);`
note the truncating assignment into a `uint16_t`. -/
def max_size (baudrate : Nat) : Nat :=
  u16 (baudrate / 10 / (1000000 / RPIOUART_POLL_TIME_INTERVAL))

/-- Tail of `_timer_tick` from the `if (!_initialised)` check (line 443) to the end,
entered with the trace `tr` of packets already transmitted by the
negotiation block. -/
def timer_tick_body (s : UARTState) (env : TickEnv) (tr : List IOPacket) :
    UARTState × List IOPacket :=
  if s.initialised = false then (s, tr)
  else if u32sub env.now s.last_update_timestamp < RPIOUART_POLL_TIME_INTERVAL then
    (s, tr)
  else
    let s1 := { s with in_timer := true }
    if env.sem2 = false then (s1, tr)
    else
      -- outbound step (lines 459-481)
      let n0 := s1.writebuf.available
      let n1 := if n0 > PKT_MAX_REGS * 2 then PKT_MAX_REGS * 2 else n0
      let n := if n1 > max_size s1.baudrate then max_size s1.baudrate else n1
      let rd := s1.writebuf.read_n n
      let txA := mkBulkPacket rd.1 n
      -- inbound step (lines 486-513)
      let txB := mkReadPacket
      let m0 := s1.readbuf.space
      let rb :=
        if env.rx.page = PX4IO_PAGE_UART_BUFFER then
          let m1 := if m0 > env.rx.offset then env.rx.offset else m0
          let m := if m1 > PKT_MAX_REGS * 2 then PKT_MAX_REGS * 2 else m1
          s1.readbuf.write_bytes ((regsBytes env.rx.regs).take m)
        else s1.readbuf
      ({ s1 with
          writebuf := rd.2
          readbuf := rb
          in_timer := false
          last_update_timestamp := u32 env.now2 },
        tr ++ [txA, txB])

/-- Poll entry point `RPIOUARTDriver::_timer_tick` (lines 404-519).  In external mode the
delegate's periodic service (not in the transcribed source) exchanges no
packets on this bus.  Returns the successor state and the bus trace. -/
def timer_tick (s : UARTState) (env : TickEnv) : UARTState × List IOPacket :=
  if s.external then (s, [])
  else if s.need_set_baud then
    if s.baudrate ≠ 0 then
      if env.sem1 = false then (s, [])
      else
        timer_tick_body { s with need_set_baud := false } env
          [mkBaudPacket s.baudrate]
    else
      timer_tick_body { s with need_set_baud := false } env []
  else timer_tick_body s env []

/-- Number of bytes a serviced poll cycle drains from the outbound buffer
(the clamp chain of lines 459-468 written with `min`). -/
def drainCount (s : UARTState) : Nat :=
  min (min s.writebuf.available (PKT_MAX_REGS * 2)) (max_size s.baudrate)

/-- Effect of the inbound step (lines 500-514) on the inbound buffer: a
page-matching response appends `min (min space offset) capacity` payload
bytes, any other response leaves the buffer untouched. -/
def inboundAppend (rb : ByteBuffer) (rx : IOPacket) : ByteBuffer :=
  if rx.page = PX4IO_PAGE_UART_BUFFER then
    rb.write_bytes
      ((regsBytes rx.regs).take (min (min rb.space rx.offset) (PKT_MAX_REGS * 2)))
  else rb

/-- Concrete response packet for the sample runs: UART page, two reported
bytes 0x41 0x42 in register 0. -/
def sampleRx : IOPacket :=
  { count_code := 0
    page := PX4IO_PAGE_UART_BUFFER
    offset := 2
    regs := (List.replicate PKT_MAX_REGS 0).set 0 16961
    crc := 0 }

/-- Concrete virtual-mode state for the sample runs: initialised, baud
57600, three outbound bytes queued, inbound buffer empty. -/
def sampleState : UARTState :=
  { external := false
    need_set_baud := false
    baudrate := 57600
    initialised := true
    in_timer := false
    last_update_timestamp := 0
    writebuf := { size := 2048, data := [1, 2, 3] }
    readbuf := { size := 2048, data := [] } }

/-- Concrete tick environment for the sample runs: 20000 us on the clock
(elapsed 20000 ≥ 10000), both semaphore acquisitions succeed, response
`sampleRx`. -/
def sampleEnv : TickEnv :=
  { now := 20000, now2 := 20050, sem1 := true, sem2 := true, rx := sampleRx }

/-- Begin-environment with no hardware device path configured. -/
def noDeviceEnv : BeginEnv := { device_path := false, hw_init_ok := false }

/-- Sample state at an extreme baud rate whose untruncated byte budget
(65536) overflows the `uint16_t` budget variable, with 100 outbound bytes
queued. -/
def bigBaudState : UARTState :=
  { sampleState with
      baudrate := 65536000
      writebuf := { size := 2048, data := List.replicate 100 7 } }

/-- Tick environment whose response packet is addressed to page 3, not the
UART-buffer page. -/
def mismatchEnv : TickEnv :=
  { sampleEnv with rx := { sampleRx with page := 3 } }

/-- Sample state with an empty outbound buffer. -/
def emptyWbState : UARTState :=
  { sampleState with writebuf := { size := 2048, data := [] } }

/-- State as left by a `begin` whose handshake has not yet been serviced:
negotiation pending, baud recorded, not yet initialised. -/
def preInitState : UARTState :=
  { initialState with need_set_baud := true, baudrate := 57600 }

/-- The C clamp idiom `if (n > m) n = m;` computes a minimum. -/
theorem if_gt_min (a m : Nat) : (if a > m then m else a) = min a m := by
  rcases le_or_lt a m with h | h
  · rw [if_neg (by omega), Nat.min_eq_left h]
  · rw [if_pos h, Nat.min_eq_right (le_of_lt h)]

/-- Normal form of two stacked C clamps. -/
theorem min_clamp (a b c : Nat) :
    (if c < a ∧ c < b then c else a ⊓ b) = a ⊓ (b ⊓ c) := by
  split <;> omega

/-- Last element of a trace ending in two packets. -/
theorem getLast_append_pair (l : List IOPacket) (a b : IOPacket) :
    (l ++ [a, b]).getLast? = some b := by
  rw [show l ++ [a, b] = (l ++ [a]) ++ [b] by simp]
  exact List.getLast?_concat _

/-- Characterization of a serviced poll cycle: when the tick is in virtual
mode, any pending negotiation can take the bus, the transport is
initialised, the poll interval has elapsed, and the main semaphore
acquisition succeeds, the tick drains `drainCount` outbound bytes into a
bulk packet, transacts the READ request, appends the response through
`inboundAppend`, clears the guard flag and stores the fresh timestamp. -/
theorem timer_tick_serviced (s : UARTState) (env : TickEnv)
    (h1 : s.external = false)
    (h2 : s.need_set_baud = true → s.baudrate ≠ 0 → env.sem1 = true)
    (h3 : s.initialised = true)
    (h4 : RPIOUART_POLL_TIME_INTERVAL ≤ u32sub env.now s.last_update_timestamp)
    (h5 : env.sem2 = true) :
    timer_tick s env =
      ({ s with
          need_set_baud := false
          writebuf := { s.writebuf with data := s.writebuf.data.drop (drainCount s) }
          readbuf := inboundAppend s.readbuf env.rx
          in_timer := false
          last_update_timestamp := u32 env.now2 },
       (if s.need_set_baud = true ∧ s.baudrate ≠ 0 then
          [mkBaudPacket s.baudrate] else []) ++
         [mkBulkPacket (s.writebuf.data.take (drainCount s)) (drainCount s),
          mkReadPacket]) := by
  obtain ⟨ext, nsb, baud, init, intim, last, wb, rb⟩ := s
  simp only at h1 h2 h3 h4
  subst h1 h3
  by_cases hn : nsb = true
  · by_cases hb : baud = 0
    · subst hn hb
      simp [timer_tick, timer_tick_body, h5, Nat.not_lt.mpr h4, drainCount,
        inboundAppend, ByteBuffer.read_n, ByteBuffer.available, if_gt_min,
        min_clamp]
    · have hs1 := h2 hn hb
      subst hn
      simp [timer_tick, timer_tick_body, hb, hs1, h5, Nat.not_lt.mpr h4,
        drainCount, inboundAppend, ByteBuffer.read_n, ByteBuffer.available,
        if_gt_min, min_clamp]
  · simp only [Bool.not_eq_true] at hn
    subst hn
    simp [timer_tick, timer_tick_body, h5, Nat.not_lt.mpr h4, drainCount,
      inboundAppend, ByteBuffer.read_n, ByteBuffer.available, if_gt_min,
      min_clamp]

/-- C1, counterexample: a tick whose main-poll lock acquisition fails does
not leave the state unchanged — the poll-in-progress guard flag, false on
entry, is true on return (the code sets `_in_timer = true` at line 450
before the lock attempt at line 452 and returns without clearing it). -/
theorem c1_lock_fail_state_changed_counterexample :
    (timer_tick sampleState { sampleEnv with sem2 := false }).1 ≠ sampleState ∧
    (timer_tick sampleState { sampleEnv with sem2 := false }).1
      = { sampleState with in_timer := true } ∧
    (timer_tick sampleState { sampleEnv with sem2 := false }).2 = [] := by
  decide

/-- C1, amended: on a failed non-blocking lock acquisition the buffers and
the last-serviced timestamp are unchanged by that tick, and the only other
effects are those of phases the tick had already completed.  A failure at
the negotiation step's lock attempt leaves the entire state unchanged and
transmits nothing.  A failure at the main poll's lock attempt leaves the
poll-in-progress guard flag set to true and the negotiation-pending flag
cleared; the bus traffic of such a tick is exactly the baud packet of a
negotiation that was pending with a nonzero baud rate (whose own lock
attempt succeeded), and nothing otherwise. -/
theorem c1_lock_fail_frame (s : UARTState) (env : TickEnv)
    (hext : s.external = false) :
    (s.need_set_baud = true → s.baudrate ≠ 0 → env.sem1 = false →
       timer_tick s env = (s, [])) ∧
    ((s.need_set_baud = true → s.baudrate ≠ 0 → env.sem1 = true) →
       s.initialised = true →
       RPIOUART_POLL_TIME_INTERVAL ≤ u32sub env.now s.last_update_timestamp →
       env.sem2 = false →
       timer_tick s env
         = ({ s with need_set_baud := false, in_timer := true },
            if s.need_set_baud = true ∧ s.baudrate ≠ 0 then
              [mkBaudPacket s.baudrate] else [])) := by
  obtain ⟨ext, nsb, baud, init, intim, last, wb, rb⟩ := s
  simp only at hext
  subst hext
  constructor
  · intro ha hb hc
    subst ha
    simp [timer_tick, hb, hc]
  · intro ha hb hc hd
    subst hb
    by_cases hn : nsb = true
    · subst hn
      by_cases hbd : baud = 0
      · subst hbd
        simp [timer_tick, timer_tick_body, hd, Nat.not_lt.mpr hc]
      · have hs1 := ha rfl hbd
        simp [timer_tick, timer_tick_body, hbd, hs1, hd, Nat.not_lt.mpr hc]
    · have hn0 : nsb = false := by
        revert hn
        cases nsb <;> simp
      subst hn0
      simp [timer_tick, timer_tick_body, hd, Nat.not_lt.mpr hc]

/-- C1, witness: the lock-failure shapes at concrete inputs — a failed
negotiation-step acquisition (state unchanged, nothing transmitted), a
failed main-poll acquisition with nothing pending (only the guard flag
set), and a failed main-poll acquisition after a serviced nonzero-baud
negotiation (guard flag set, pending flag cleared, the baud packet the
only traffic). -/
theorem c1_lock_fail_frame_witness :
    timer_tick { sampleState with need_set_baud := true }
        { sampleEnv with sem1 := false }
      = ({ sampleState with need_set_baud := true }, []) ∧
    timer_tick sampleState { sampleEnv with sem2 := false }
      = ({ sampleState with need_set_baud := false, in_timer := true }, []) ∧
    timer_tick { sampleState with need_set_baud := true }
        { sampleEnv with sem2 := false }
      = ({ sampleState with need_set_baud := false, in_timer := true },
         [mkBaudPacket sampleState.baudrate]) :=
  ⟨(c1_lock_fail_frame _ _ rfl).1 rfl (by decide) rfl,
   ((c1_lock_fail_frame sampleState { sampleEnv with sem2 := false }
       rfl).2 (by decide) rfl (by decide) rfl).trans (by decide),
   ((c1_lock_fail_frame { sampleState with need_set_baud := true }
       { sampleEnv with sem2 := false }
       rfl).2 (by decide) rfl (by decide) rfl).trans (by decide)⟩

/-- C2, counterexample: with a baud negotiation pending and a nonzero baud
rate, a tick whose elapsed time (5000 us) is below the minimum poll
interval (10000 us) still attempts the lock and performs a bus transfer —
the negotiation block (lines 412-440) runs before the rate limiter
(line 446). -/
theorem c2_rate_limit_counterexample :
    u32sub 5000 sampleState.last_update_timestamp
        < RPIOUART_POLL_TIME_INTERVAL ∧
    (timer_tick { sampleState with need_set_baud := true }
        { sampleEnv with now := 5000 }).2 ≠ [] := by
  decide

/-- C2, amended: when no baud negotiation is pending (or the pending baud
rate is zero, in which case the negotiation performs no transaction), a
tick in virtual mode whose elapsed monotonic time since the last serviced
poll is below the minimum interval returns without any bus transaction,
changing nothing but possibly clearing the negotiation-pending flag. -/
theorem c2_below_interval_no_bus (s : UARTState) (env : TickEnv)
    (hext : s.external = false)
    (hq : s.need_set_baud = false ∨ s.baudrate = 0)
    (hlt : u32sub env.now s.last_update_timestamp
        < RPIOUART_POLL_TIME_INTERVAL) :
    timer_tick s env = ({ s with need_set_baud := false }, []) := by
  obtain ⟨ext, nsb, baud, init, intim, last, wb, rb⟩ := s
  simp only at hext hq hlt
  subst hext
  rcases hq with h | h
  · subst h
    cases init <;> simp [timer_tick, timer_tick_body, hlt]
  · subst h
    cases nsb <;> cases init <;> simp [timer_tick, timer_tick_body, hlt]

/-- C2, witness: a below-interval tick with nothing pending is silent. -/
theorem c2_below_interval_no_bus_witness :
    timer_tick sampleState { sampleEnv with now := 5000 }
      = ({ sampleState with need_set_baud := false }, []) :=
  c2_below_interval_no_bus _ _ rfl (Or.inl rfl) (by decide)

/-- C3, counterexample: a tick entered with the poll-in-progress flag
already set does not return immediately — it performs both bus transfers
and modifies the state (`_timer_tick` never tests `_in_timer`). -/
theorem c3_reentry_counterexample :
    (timer_tick { sampleState with in_timer := true } sampleEnv).2 ≠ [] ∧
    (timer_tick { sampleState with in_timer := true } sampleEnv).1
      ≠ { sampleState with in_timer := true } := by
  decide

/-- C3, amended: `tick()` does not examine the poll-in-progress flag on
entry; its bus traffic and its effect on every other field are identical
whatever the incoming value of the flag (the flag is set during the
serviced poll body and cleared at its end — it makes `begin()` wait, it is
not a re-entrancy guard inside the tick). -/
theorem c3_tick_ignores_in_timer (s : UARTState) (env : TickEnv)
    (b1 b2 : Bool) :
    (timer_tick { s with in_timer := b1 } env).2
      = (timer_tick { s with in_timer := b2 } env).2 ∧
    { (timer_tick { s with in_timer := b1 } env).1 with in_timer := false }
      = { (timer_tick { s with in_timer := b2 } env).1 with in_timer := false }
    := by
  obtain ⟨ext, nsb, baud, init, intim, last, wb, rb⟩ := s
  have hbody : ∀ (nsb2 : Bool) (tr : List IOPacket),
      (timer_tick_body ⟨ext, nsb2, baud, init, b1, last, wb, rb⟩ env tr).2
        = (timer_tick_body ⟨ext, nsb2, baud, init, b2, last, wb, rb⟩ env tr).2 ∧
      { (timer_tick_body ⟨ext, nsb2, baud, init, b1, last, wb, rb⟩ env tr).1
          with in_timer := false }
        = { (timer_tick_body ⟨ext, nsb2, baud, init, b2, last, wb, rb⟩ env tr).1
          with in_timer := false } := by
    intro nsb2 tr
    by_cases hI : init = false
    · simp [timer_tick_body, hI]
    · by_cases hT : u32sub env.now last < RPIOUART_POLL_TIME_INTERVAL
      · simp [timer_tick_body, hI, hT]
      · by_cases hS : env.sem2 = false
        · simp [timer_tick_body, hI, hT, hS]
        · simp [timer_tick_body, hI, hT, hS]
  cases ext
  · by_cases hN : nsb = true
    · subst hN
      by_cases hB : baud = 0
      · subst hB
        simpa [timer_tick] using hbody false []
      · by_cases hS : env.sem1 = false
        · simp [timer_tick, hB, hS]
        · have hS1 : env.sem1 = true := by
            revert hS
            cases env.sem1 <;> simp
          simpa [timer_tick, hB, hS1] using hbody false [mkBaudPacket baud]
    · have hN0 : nsb = false := by
        revert hN
        cases nsb <;> simp
      subst hN0
      simpa [timer_tick] using hbody false []
  · simp [timer_tick]

/-- Byte length of the register byte view: two bytes per register. -/
theorem regsBytes_length (regs : List Nat) :
    (regsBytes regs).length = 2 * regs.length := by
  induction regs with
  | nil => rfl
  | cons r t ih =>
    simp [regsBytes] at ih ⊢
    omega

/-- C4, counterexample: at baud rate 65,536,000 with 100 outbound bytes
queued, the cycle drains 0 bytes (the `uint16_t` budget
`65536000 / 10 / 100 = 65536` truncates to 0 at line 465), while the
claimed `min(available, capacity, untruncated budget)` is 64. -/
theorem c4_budget_truncation_counterexample :
    bigBaudState.writebuf.available
        - (timer_tick bigBaudState sampleEnv).1.writebuf.available
      ≠ min (min bigBaudState.writebuf.available (PKT_MAX_REGS * 2))
          (bigBaudState.baudrate / 10
            / (1000000 / RPIOUART_POLL_TIME_INTERVAL)) ∧
    bigBaudState.writebuf.available
        - (timer_tick bigBaudState sampleEnv).1.writebuf.available = 0 ∧
    min (min bigBaudState.writebuf.available (PKT_MAX_REGS * 2))
        (bigBaudState.baudrate / 10 / (1000000 / RPIOUART_POLL_TIME_INTERVAL))
      = 64 := by
  decide

/-- C4, amended: every serviced poll cycle drains exactly
`min(outbound available, packet register capacity in bytes, budget)`
bytes from the outbound buffer, where the budget is
`baud_rate / 10 / (1,000,000 / poll_interval_microseconds)` truncated to
an unsigned 16-bit value (the code stores it in a `uint16_t`). -/
theorem c4_outbound_drain (s : UARTState) (env : TickEnv)
    (h1 : s.external = false)
    (h2 : s.need_set_baud = true → s.baudrate ≠ 0 → env.sem1 = true)
    (h3 : s.initialised = true)
    (h4 : RPIOUART_POLL_TIME_INTERVAL ≤ u32sub env.now s.last_update_timestamp)
    (h5 : env.sem2 = true) :
    (timer_tick s env).1.writebuf.data
        = s.writebuf.data.drop (drainCount s) ∧
    s.writebuf.available - (timer_tick s env).1.writebuf.available
        = drainCount s ∧
    drainCount s
        = min (min s.writebuf.available (PKT_MAX_REGS * 2))
            (u16 (s.baudrate / 10 / (1000000 / RPIOUART_POLL_TIME_INTERVAL)))
    := by
  have h := timer_tick_serviced s env h1 h2 h3 h4 h5
  have hle : drainCount s ≤ s.writebuf.data.length :=
    le_trans (Nat.min_le_left _ _) (Nat.min_le_left _ _)
  refine ⟨?_, ?_, rfl⟩
  · rw [h]
  · rw [h]
    simp only [ByteBuffer.available, List.length_drop]
    omega

/-- C4, witness: the sample serviced cycle drains all three queued bytes
(available 3, capacity 64, budget 57). -/
theorem c4_outbound_drain_witness :
    (timer_tick sampleState sampleEnv).1.writebuf.data = [] ∧
    sampleState.writebuf.available
        - (timer_tick sampleState sampleEnv).1.writebuf.available = 3 := by
  have h := c4_outbound_drain sampleState sampleEnv rfl (by decide) rfl
    (by decide) rfl
  exact ⟨h.1.trans (by decide), (h.2.1).trans (by decide)⟩

/-- C5, counterexample: in a serviced poll cycle the transmitted
inbound-step request is `mkReadPacket`, whose page field is the literal 0
written at line 487 — not the UART-buffer page selector. -/
theorem c5_read_request_page_counterexample :
    (timer_tick sampleState sampleEnv).2
      = [mkBulkPacket [1, 2, 3] 3, mkReadPacket] ∧
    mkReadPacket.page = 0 ∧
    mkReadPacket.page ≠ PX4IO_PAGE_UART_BUFFER := by
  decide

/-- C5, amended: in every serviced poll cycle the inbound-step request is
the last packet transmitted; its opcode is READ, its payload registers
are all zero and its offset is zero, but its page field is 0, not the
UART-buffer page (that page selector is only compared against the
response). -/
theorem c5_read_request_shape (s : UARTState) (env : TickEnv)
    (h1 : s.external = false)
    (h2 : s.need_set_baud = true → s.baudrate ≠ 0 → env.sem1 = true)
    (h3 : s.initialised = true)
    (h4 : RPIOUART_POLL_TIME_INTERVAL ≤ u32sub env.now s.last_update_timestamp)
    (h5 : env.sem2 = true) :
    ((timer_tick s env).2).getLast? = some mkReadPacket ∧
    mkReadPacket.count_code = PKT_CODE_READ ∧
    mkReadPacket.regs = List.replicate PKT_MAX_REGS 0 ∧
    mkReadPacket.offset = 0 ∧
    mkReadPacket.page = 0 := by
  have h := timer_tick_serviced s env h1 h2 h3 h4 h5
  refine ⟨?_, by decide, by decide, by decide, by decide⟩
  rw [h]
  exact getLast_append_pair _ _ _

/-- C5, witness: the sample serviced cycle ends with the READ request. -/
theorem c5_read_request_shape_witness :
    ((timer_tick sampleState sampleEnv).2).getLast? = some mkReadPacket :=
  (c5_read_request_shape sampleState sampleEnv rfl (by decide) rfl
    (by decide) rfl).1

/-- C6: in every serviced poll cycle, a response whose page differs from
the UART-buffer page leaves the inbound buffer unchanged, and a response
on the UART-buffer page appends exactly
`min(space available, response offset, packet register capacity in bytes)`
bytes of its payload. -/
theorem c6_inbound_append (s : UARTState) (env : TickEnv)
    (h1 : s.external = false)
    (h2 : s.need_set_baud = true → s.baudrate ≠ 0 → env.sem1 = true)
    (h3 : s.initialised = true)
    (h4 : RPIOUART_POLL_TIME_INTERVAL ≤ u32sub env.now s.last_update_timestamp)
    (h5 : env.sem2 = true)
    (hlen : env.rx.regs.length = PKT_MAX_REGS) :
    (env.rx.page ≠ PX4IO_PAGE_UART_BUFFER →
       (timer_tick s env).1.readbuf = s.readbuf) ∧
    (env.rx.page = PX4IO_PAGE_UART_BUFFER →
       (timer_tick s env).1.readbuf.data
         = s.readbuf.data
             ++ (regsBytes env.rx.regs).take
                  (min (min s.readbuf.space env.rx.offset) (PKT_MAX_REGS * 2)) ∧
       ((timer_tick s env).1.readbuf.data).length
         = s.readbuf.data.length
             + min (min s.readbuf.space env.rx.offset) (PKT_MAX_REGS * 2)) := by
  have h := timer_tick_serviced s env h1 h2 h3 h4 h5
  have hbl : (regsBytes env.rx.regs).length = PKT_MAX_REGS * 2 := by
    rw [regsBytes_length, hlen]
    omega
  constructor
  · intro hp
    rw [h]
    simp [inboundAppend, hp]
  · intro hp
    have hm1 : min (min s.readbuf.space env.rx.offset) (PKT_MAX_REGS * 2)
        ≤ s.readbuf.space :=
      le_trans (Nat.min_le_left _ _) (Nat.min_le_left _ _)
    have hm2 : min (min s.readbuf.space env.rx.offset) (PKT_MAX_REGS * 2)
        ≤ PKT_MAX_REGS * 2 := Nat.min_le_right _ _
    have hdata : (timer_tick s env).1.readbuf.data
        = s.readbuf.data
            ++ (regsBytes env.rx.regs).take
                 (min (min s.readbuf.space env.rx.offset) (PKT_MAX_REGS * 2))
        := by
      rw [h]
      show (inboundAppend s.readbuf env.rx).data = _
      simp only [inboundAppend, hp, if_pos, ByteBuffer.write_bytes,
        List.take_take]
      congr 1
      congr 1
      omega
    refine ⟨hdata, ?_⟩
    rw [hdata]
    simp [List.length_take, hbl]

/-- C6, witness: the sample response (UART page, offset 2) appends two
bytes; the same response readdressed to page 3 appends nothing. -/
theorem c6_inbound_append_witness :
    (timer_tick sampleState sampleEnv).1.readbuf.data
      = sampleState.readbuf.data
          ++ (regsBytes sampleEnv.rx.regs).take
               (min (min sampleState.readbuf.space sampleEnv.rx.offset)
                 (PKT_MAX_REGS * 2)) ∧
    (timer_tick sampleState mismatchEnv).1.readbuf = sampleState.readbuf := by
  constructor
  · exact ((c6_inbound_append sampleState sampleEnv rfl (by decide) rfl
      (by decide) rfl (by decide)).2 rfl).1
  · exact (c6_inbound_append sampleState mismatchEnv rfl (by decide) rfl
      (by decide) rfl (by decide)).1 (by decide)

/-- C7, counterexample: a virtual-mode `begin` requesting a 512-byte
receive buffer — below the 1024-byte floor of lines 359-364 — sizes it to
the 2048-byte default, not to the floor; and a 1500-byte request (below
2048 yet at or above 1024) keeps 1500.  Under neither reading of "the
floor value" is an undersized request sized to exactly that value. -/
theorem c7_floor_counterexample :
    (begin initialState 57600 512 4096 noDeviceEnv).readbuf.size = 2048 ∧
    (2048 : Nat) ≠ 1024 ∧
    (begin initialState 57600 1500 4096 noDeviceEnv).readbuf.size = 1500 ∧
    (1500 : Nat) ≠ 2048 := by
  decide

/-- C7, amended: in virtual mode a requested receive or transmit capacity
below the 1024-byte floor is replaced by the 2048-byte default — never the
requested smaller value and not the floor itself — while a request of at
least 1024 is kept as requested. -/
theorem c7_buffer_clamp (s : UARTState) (b rxS txS : Nat) (env : BeginEnv)
    (h : (env.device_path && env.hw_init_ok) = false) :
    (begin s b rxS txS env).readbuf.size
        = (if rxS < 1024 then 2048 else rxS) ∧
    (begin s b rxS txS env).writebuf.size
        = (if txS < 1024 then 2048 else txS) := by
  simp [begin, h]

/-- C7, witness: undersized requests for both buffers yield the default. -/
theorem c7_buffer_clamp_witness :
    (begin initialState 57600 512 500 noDeviceEnv).readbuf.size = 2048 ∧
    (begin initialState 57600 512 500 noDeviceEnv).writebuf.size = 2048 := by
  have h := c7_buffer_clamp initialState 57600 512 500 noDeviceEnv rfl
  exact ⟨h.1.trans (by decide), h.2.trans (by decide)⟩

/-- C8, counterexample: in a serviced cycle with an empty outbound buffer
the bulk-transfer packet carries zero payload bytes (offset 0, registers
all zero), yet the low bits of its count_code are `PKT_MAX_REGS` = 32 —
the low bits do not hold the packet's payload byte count. -/
theorem c8_count_code_counterexample :
    (timer_tick emptyWbState sampleEnv).2
      = [mkBulkPacket [] 0, mkReadPacket] ∧
    (mkBulkPacket [] 0).offset = 0 ∧
    (mkBulkPacket [] 0).regs = List.replicate PKT_MAX_REGS 0 ∧
    (mkBulkPacket [] 0).count_code % 64 = PKT_MAX_REGS ∧
    PKT_MAX_REGS ≠ 0 := by
  decide

/-- C8, amended: every packet a serviced cycle transmits has a count_code
whose high bits hold one of the three opcodes (WRITE, BULK-UART-TRANSFER,
READ) and whose low bits hold a fixed register count — 2 for the
negotiation WRITE, the full `PKT_MAX_REGS` capacity for the bulk packet
regardless of the bytes it carries (those are reported in its offset
field), and 0 for the READ request — not the packet's payload byte
count. -/
theorem c8_count_code_fields (s : UARTState) (env : TickEnv)
    (h1 : s.external = false)
    (h2 : s.need_set_baud = true → s.baudrate ≠ 0 → env.sem1 = true)
    (h3 : s.initialised = true)
    (h4 : RPIOUART_POLL_TIME_INTERVAL ≤ u32sub env.now s.last_update_timestamp)
    (h5 : env.sem2 = true) :
    (∀ p ∈ (timer_tick s env).2,
       p.count_code = 2 ||| PKT_CODE_WRITE ∨
       p.count_code = PKT_MAX_REGS ||| PKT_CODE_SPIUART ∨
       p.count_code = 0 ||| PKT_CODE_READ) ∧
    (2 ||| PKT_CODE_WRITE) % 64 = 2 ∧
    (2 ||| PKT_CODE_WRITE) / 64 * 64 = PKT_CODE_WRITE ∧
    (PKT_MAX_REGS ||| PKT_CODE_SPIUART) % 64 = PKT_MAX_REGS ∧
    (PKT_MAX_REGS ||| PKT_CODE_SPIUART) / 64 * 64 = PKT_CODE_SPIUART ∧
    (0 ||| PKT_CODE_READ) % 64 = 0 ∧
    (0 ||| PKT_CODE_READ) / 64 * 64 = PKT_CODE_READ := by
  have h := timer_tick_serviced s env h1 h2 h3 h4 h5
  refine ⟨?_, by decide, by decide, by decide, by decide, by decide,
    by decide⟩
  intro p hp
  rw [h] at hp
  rcases List.mem_append.mp hp with hl | hr
  · left
    by_cases hc : s.need_set_baud = true ∧ s.baudrate ≠ 0
    · rw [if_pos hc] at hl
      simp only [List.mem_singleton] at hl
      subst hl
      rfl
    · rw [if_neg hc] at hl
      simp at hl
  · simp only [List.mem_cons, List.mem_singleton, List.not_mem_nil,
      or_false] at hr
    rcases hr with h | h <;> subst h
    · right; left; rfl
    · right; right; rfl

/-- C8, witness: the READ request of the sample serviced cycle. -/
theorem c8_count_code_fields_witness :
    mkReadPacket.count_code = 2 ||| PKT_CODE_WRITE ∨
    mkReadPacket.count_code = PKT_MAX_REGS ||| PKT_CODE_SPIUART ∨
    mkReadPacket.count_code = 0 ||| PKT_CODE_READ :=
  (c8_count_code_fields sampleState sampleEnv rfl (by decide) rfl
    (by decide) rfl).1 mkReadPacket (by decide)

/-- C9, counterexample: a tick in virtual mode before initialization
(`_initialised` false) with a pending nonzero-baud negotiation performs a
bus transfer — the negotiation block (lines 412-440) runs before the
`if (!_initialised) return;` check (line 443). -/
theorem c9_uninitialised_counterexample :
    preInitState.initialised = false ∧
    (timer_tick preInitState sampleEnv).2 ≠ [] := by
  decide

/-- C9, amended: before initialization a virtual-mode tick performs no bus
transaction and changes nothing except possibly clearing the
negotiation-pending flag — unless a baud negotiation with a nonzero baud
rate is pending, in which case its transfer is performed even though the
transport is uninitialized (the `begin` handshake requires it); the fd
primitives return the -1 failure result in virtual mode. -/
theorem c9_uninitialised_no_poll (s : UARTState) (env : TickEnv)
    (hext : s.external = false)
    (hinit : s.initialised = false)
    (hq : s.need_set_baud = false ∨ s.baudrate = 0) :
    timer_tick s env = ({ s with need_set_baud := false }, []) ∧
    write_fd s 0 = -1 ∧ read_fd s 0 = -1 := by
  obtain ⟨ext, nsb, baud, init, intim, last, wb, rb⟩ := s
  simp only at hext hinit hq
  subst hext hinit
  refine ⟨?_, by simp [write_fd], by simp [read_fd]⟩
  rcases hq with h | h
  · subst h
    simp [timer_tick, timer_tick_body]
  · subst h
    cases nsb <;> simp [timer_tick, timer_tick_body]

/-- C9, witness: an uninitialized tick with nothing pending is silent. -/
theorem c9_uninitialised_no_poll_witness :
    timer_tick { initialState with baudrate := 57600 } sampleEnv
      = ({ initialState with baudrate := 57600 }, []) ∧
    write_fd { initialState with baudrate := 57600 } 0 = -1 := by
  have h := c9_uninitialised_no_poll { initialState with baudrate := 57600 }
    sampleEnv rfl rfl (Or.inl rfl)
  exact ⟨h.1, h.2.1⟩

/-- C10: external mode is entered exactly when a hardware device path is
configured and the delegated hardware UART initialization succeeds; when
that conjunction fails the external flag stays false and the virtual path
engages the packet protocol — buffers allocated at no less than the
floor, baud rate recorded, negotiation requested. -/
theorem c10_external_mode (s : UARTState) (b rxS txS : Nat) (env : BeginEnv)
    (h : s.external = false) :
    isExternal (begin s b rxS txS env) = (env.device_path && env.hw_init_ok) ∧
    ((env.device_path && env.hw_init_ok) = false →
       (begin s b rxS txS env).need_set_baud = true ∧
       (begin s b rxS txS env).baudrate = u32 b ∧
       1024 ≤ (begin s b rxS txS env).readbuf.size ∧
       1024 ≤ (begin s b rxS txS env).writebuf.size) := by
  by_cases hd : (env.device_path && env.hw_init_ok) = true
  · simp [begin, isExternal, hd]
  · simp only [Bool.not_eq_true] at hd
    have hr : (begin s b rxS txS env).readbuf.size
        = (if rxS < 1024 then 2048 else rxS) := by simp [begin, hd]
    have hw : (begin s b rxS txS env).writebuf.size
        = (if txS < 1024 then 2048 else txS) := by simp [begin, hd]
    refine ⟨by simp [begin, isExternal, hd, h], fun _ => ⟨by simp [begin, hd],
      by simp [begin, hd], ?_, ?_⟩⟩
    · rw [hr]
      split <;> omega
    · rw [hw]
      split <;> omega

/-- C10, witness: a configured device path whose hardware initialization
fails leaves the transport in virtual mode with negotiation pending. -/
theorem c10_external_mode_witness :
    isExternal
        (begin initialState 57600 100 100
          { device_path := true, hw_init_ok := false })
      = (true && false) ∧
    (begin initialState 57600 100 100
        { device_path := true, hw_init_ok := false }).need_set_baud
      = true := by
  have h := c10_external_mode initialState 57600 100 100
    { device_path := true, hw_init_ok := false } rfl
  exact ⟨h.1, (h.2 rfl).1⟩

end RPIOUART
